import Mathlib

/-!
Shallow embedding of the OAuth token lifecycle manager of the whoop-mcp
repository (pkg/auth/token.go, pkg/auth/oauth.go, pkg/whoop/client.go).

Modelling conventions:
* Instants are integers counting nanoseconds (Go `time.Time` arithmetic is
  nanosecond-based); the Go zero `time.Time` is modelled as `Option.none`
  in the `expiry` field, since `IsZero` distinguishes exactly that value.
* The token file is a `FileState`: missing, unreadable (ReadFile fails with
  a non-NotExist error), or stored bytes which either unmarshal to a Token
  or are invalid JSON.  `encoding/json` marshalling of the four-field
  `Token` struct is modelled by the injective constructor
  `FileBytes.tokenJson`, so `unmarshal ∘ marshal = some` reflects the
  stdlib round-trip contract.
* Each HTTP POST to the token endpoint is modelled by a `NetResponse`
  oracle (transport failure, or a status code with an optionally decodable
  body); functions that may call the network also return how many such
  calls they made, so "no network call" is `netCalls = 0`.
-/

namespace WhoopMCP

/-- Nanoseconds per second, Go `time.Second`. -/
def nsPerSecond : Int := 1000000000

/-- Go `5 * time.Minute` in nanoseconds: the refresh safety margin. -/
def fiveMinutes : Int := 300000000000

/-- pkg/auth/token.go `Token`: OAuth2 token data stored on disk.
`expiry = none` models the zero `time.Time` (no known expiry). -/
structure Token where
  accessToken : String
  refreshToken : String
  tokenType : String
  expiry : Option Int
  deriving Repr, DecidableEq

/-- token.go `Token.IsExpired`: false on a zero expiry, otherwise true iff
`time.Now().Add(5*time.Minute).After(t.Expiry)`, i.e. now + 5min > expiry
(strictly). `now` is the call-time clock reading. -/
def Token.isExpired (t : Token) (now : Int) : Bool :=
  match t.expiry with
  | none => false
  | some e => decide (now + fiveMinutes > e)

/-- Bytes of the token file: either the JSON marshalling of a four-field
token record, or content that does not parse as one. -/
inductive FileBytes where
  | tokenJson (accessToken refreshToken tokenType : String) (expiry : Option Int)
  | invalidJson
  deriving Repr, DecidableEq

/-- State of the token file on disk. `unreadable` models a ReadFile error
other than NotExist (e.g. permission denied). -/
inductive FileState where
  | missing
  | unreadable
  | stored (b : FileBytes)
  deriving Repr, DecidableEq

/-- `json.MarshalIndent` of a Token (token.go Save, line 104). -/
def marshalToken (t : Token) : FileBytes :=
  .tokenJson t.accessToken t.refreshToken t.tokenType t.expiry

/-- `json.Unmarshal` into a Token (token.go Load, line 90). -/
def unmarshalToken : FileBytes → Option Token
  | .tokenJson a r ty e => some ⟨a, r, ty, e⟩
  | .invalidJson => none

/-- token.go `TokenManager.Load`: missing file yields `ok none`; a read
error or unparseable content yields an error; otherwise the parsed token. -/
def load : FileState → Except String (Option Token)
  | .missing => .ok none
  | .unreadable => .error "reading token file"
  | .stored b =>
    match unmarshalToken b with
    | none => .error "parsing token file"
    | some t => .ok (some t)

/-- token.go `TokenManager.Save` (success path): the file afterwards holds
the marshalled token. -/
def save (t : Token) : FileState :=
  .stored (marshalToken t)

/-- token.go `TokenManager.Delete`: `os.Remove`, with NotExist ignored;
returns the resulting file state. -/
def deleteFile : FileState → Except String FileState
  | .missing => .ok .missing
  | .unreadable => .ok .missing
  | .stored _ => .ok .missing

/-- token.go `tokenResponse`: JSON body of the OAuth2 token endpoint. -/
structure TokenResponse where
  accessToken : String
  refreshToken : String
  tokenType : String
  expiresIn : Int
  scope : String
  deriving Repr, DecidableEq

/-- Outcome of one HTTP POST to the token endpoint: transport failure, or
a status code together with the body (`none` = body not decodable). -/
inductive NetResponse where
  | failed
  | response (status : Nat) (body : Option TokenResponse)
  deriving Repr, DecidableEq

/-- The Token built from a token-endpoint response, shared construction of
token.go Refresh (lines 154-159) and oauth.go exchangeCode (lines 221-226):
`Expiry = time.Now().Add(time.Duration(ExpiresIn) * time.Second)`. -/
def mkTokenFromResponse (now : Int) (r : TokenResponse) : Token :=
  { accessToken := r.accessToken
    refreshToken := r.refreshToken
    tokenType := r.tokenType
    expiry := some (now + r.expiresIn * nsPerSecond) }

/-- Environment of a Refresh / EnsureValidToken call: clock reading,
token-endpoint behaviour, and whether the filesystem write succeeds. -/
structure RefreshEnv where
  now : Int
  net : NetResponse
  saveOk : Bool
  deriving Repr, DecidableEq

/-- Result of token.go `TokenManager.Refresh`: the returned token or error,
the token-file state afterwards, and the number of token-endpoint calls. -/
structure RefreshOutcome where
  result : Except String Token
  fs : FileState
  netCalls : Nat
  deriving Repr

/-- token.go `TokenManager.Refresh` (lines 126-166): POST the refresh
grant; on non-200 or undecodable body fail; otherwise build the token,
persist it via Save, and return it. Always exactly one network call. -/
def refresh (env : RefreshEnv) (fs : FileState) : RefreshOutcome :=
  match env.net with
  | .failed => ⟨.error "executing refresh request", fs, 1⟩
  | .response status body =>
    if status ≠ 200 then
      ⟨.error ("refresh failed with status " ++ toString status), fs, 1⟩
    else
      match body with
      | none => ⟨.error "parsing refresh response", fs, 1⟩
      | some r =>
        let t := mkTokenFromResponse env.now r
        if env.saveOk then ⟨.ok t, save t, 1⟩
        else ⟨.error "saving refreshed token", fs, 1⟩

/-- Result of token.go `EnsureValidToken`: the access-token string or
error, the token-file state afterwards, and token-endpoint call count. -/
structure EnsureOutcome where
  result : Except String String
  fs : FileState
  netCalls : Nat
  deriving Repr

/-- token.go `TokenManager.EnsureValidToken` (lines 170-190): load; absent
token yields `ok ""`; a non-expired token's access token is returned as
is; an expired token with empty refresh token is an error; otherwise
delegate to Refresh. -/
def ensureValidToken (env : RefreshEnv) (fs : FileState) : EnsureOutcome :=
  match load fs with
  | .error e => ⟨.error e, fs, 0⟩
  | .ok none => ⟨.ok "", fs, 0⟩
  | .ok (some token) =>
    if token.isExpired env.now then
      if token.refreshToken = "" then
        ⟨.error "token expired and no refresh token available", fs, 0⟩
      else
        let r := refresh env fs
        match r.result with
        | .error e => ⟨.error ("refreshing token: " ++ e), r.fs, r.netCalls⟩
        | .ok t => ⟨.ok t.accessToken, r.fs, r.netCalls⟩
    else ⟨.ok token.accessToken, fs, 0⟩

/-- oauth.go `AuthResult`: outcome record of one authorization attempt. -/
structure AuthResult where
  success : Bool
  message : String
  deriving Repr, DecidableEq

/-- Query parameters of one callback request; `r.URL.Query().Get` yields
`""` for an absent parameter, so absent and empty coincide. -/
structure CallbackQuery where
  state : String
  errorParam : String
  errorDescription : String
  code : String
  deriving Repr, DecidableEq

/-- What the callback handler pushes on its channels: an error message on
`errChan` or an authorization code on `codeChan`. -/
inductive CallbackSignal where
  | sigError (msg : String)
  | sigCode (code : String)
  deriving Repr, DecidableEq

/-- oauth.go `startCallbackServer` handler (lines 126-152): reject a state
mismatch first, then a provider-reported error, then a missing code;
otherwise signal the code. -/
def handleCallback (expectedState : String) (q : CallbackQuery) : CallbackSignal :=
  if q.state ≠ expectedState then
    .sigError "invalid state parameter"
  else if q.errorParam ≠ "" then
    .sigError ("authorization error: " ++ q.errorParam ++ " - " ++ q.errorDescription)
  else if q.code = "" then
    .sigError "no authorization code received"
  else
    .sigCode q.code

/-- The event that wins the four-way select in StartAuthFlow (oauth.go
lines 69-96): a code from `codeChan`, an error from `errChan`, the
five-minute timeout, or context cancellation. -/
inductive FlowEvent where
  | codeReceived (code : String)
  | errReceived (msg : String)
  | timedOut
  | cancelled
  deriving Repr, DecidableEq

/-- A callback handler signal, delivered to the orchestrator's select. -/
def signalEvent : CallbackSignal → FlowEvent
  | .sigError m => .errReceived m
  | .sigCode c => .codeReceived c

/-- Environment of one StartAuthFlow run: whether state generation, the
listener bind, the browser open and the token save succeed, which event
wins the select, the token-endpoint behaviour, and the clock reading. -/
structure FlowEnv where
  stateGenOk : Bool
  listenOk : Bool
  browserOk : Bool
  event : FlowEvent
  exchangeNet : NetResponse
  now : Int
  saveOk : Bool
  deriving Repr, DecidableEq

/-- oauth.go `exchangeCode` (lines 191-227): POST the authorization-code
grant; non-200 or undecodable body fail; otherwise build the token. -/
def exchangeCode (env : FlowEnv) : Except String Token :=
  match env.exchangeNet with
  | .failed => .error "executing token request"
  | .response status body =>
    if status ≠ 200 then
      .error ("token exchange failed with status " ++ toString status)
    else
      match body with
      | none => .error "parsing token response"
      | some r => .ok (mkTokenFromResponse env.now r)

/-- oauth.go message on a failed browser open (line 65). -/
def browserFailMessage : String :=
  "Failed to open browser. Please visit this URL manually."

/-- oauth.go message on the authorization timeout (line 91). -/
def timeoutMessage : String :=
  "Authorization timed out. Please try again."

/-- oauth.go success message (line 82). -/
def successMessage : String :=
  "Authorization successful! Token saved."

/-- oauth.go `StartAuthFlow` (lines 45-97): infrastructure failures return
errors; a failed browser open and the timeout return non-success
AuthResults; a code is exchanged and saved; an error from `errChan` is
returned as an error; cancellation returns the context's error. -/
def startAuthFlow (env : FlowEnv) (fs : FileState) :
    Except String AuthResult × FileState :=
  if ¬env.stateGenOk then
    (.error "generating state", fs)
  else if ¬env.listenOk then
    (.error "starting callback server", fs)
  else if ¬env.browserOk then
    (.ok { success := false, message := browserFailMessage }, fs)
  else
    match env.event with
    | .codeReceived _ =>
      match exchangeCode env with
      | .error e => (.error ("exchanging code: " ++ e), fs)
      | .ok t =>
        if env.saveOk then
          (.ok { success := true, message := successMessage }, save t)
        else
          (.error "saving token", fs)
    | .errReceived m => (.error m, fs)
    | .timedOut => (.ok { success := false, message := timeoutMessage }, fs)
    | .cancelled => (.error "context cancelled", fs)

/-- A `TokenProvider` as the client sees it: the outcome its
`EnsureValidToken` would produce (client.go lines 22-24). -/
structure ProviderModel where
  ensureResult : Except String String
  deriving Repr

/-- pkg/whoop/client.go `Client`: the token fields relevant to getToken. -/
structure ClientModel where
  token : String
  tokenProvider : Option ProviderModel
  deriving Repr

/-- client.go `NewClientWithTokenProvider` (lines 52-59). -/
def newClientWithTokenProvider (envToken : String) (p : ProviderModel) : ClientModel :=
  { token := envToken, tokenProvider := some p }

/-- Result of client.go `getToken`: the token or error, and how many times
the token provider's EnsureValidToken was called. -/
structure GetTokenOutcome where
  result : Except String String
  providerCalls : Nat
  deriving Repr

/-- client.go `Client.getToken` (lines 112-130): a non-empty construction
token is returned as is; otherwise the provider, if any, is consulted. -/
def getToken (c : ClientModel) : GetTokenOutcome :=
  if c.token ≠ "" then
    ⟨.ok c.token, 0⟩
  else
    match c.tokenProvider with
    | none => ⟨.ok "", 0⟩
    | some p =>
      match p.ensureResult with
      | .error e => ⟨.error e, 1⟩
      | .ok t => if t ≠ "" then ⟨.ok t, 1⟩ else ⟨.ok "", 1⟩

/-- C1: for every stored token that is present and not expired under the
5-minute margin, EnsureValidToken returns that token's access token
unchanged, leaves the token file unchanged, and makes no token-endpoint
call. -/
theorem ensureValidToken_fresh (env : RefreshEnv) (t : Token)
    (h : t.isExpired env.now = false) :
    ensureValidToken env (save t) = ⟨.ok t.accessToken, save t, 0⟩ := by
  simp [ensureValidToken, load, save, marshalToken, unmarshalToken, h]

/-- Witness for C1 at a concrete non-expired token. -/
theorem ensureValidToken_fresh_witness :
    Token.isExpired ⟨"acc", "ref", "bearer", some 1000000000000⟩ 0 = false ∧
    ensureValidToken ⟨0, .failed, false⟩ (save ⟨"acc", "ref", "bearer", some 1000000000000⟩) =
      ⟨.ok "acc", save ⟨"acc", "ref", "bearer", some 1000000000000⟩, 0⟩ :=
  ⟨rfl, ensureValidToken_fresh ⟨0, .failed, false⟩ ⟨"acc", "ref", "bearer", some 1000000000000⟩ rfl⟩

/-- C2: for every stored token that is expired under the 5-minute margin
and has a non-empty refresh token, when the token endpoint answers 200
with a decodable body and the filesystem write succeeds, EnsureValidToken
makes exactly one token-endpoint call, returns the refreshed access token,
and the token file afterwards holds the refreshed token. -/
theorem ensureValidToken_refreshes (env : RefreshEnv) (t : Token) (r : TokenResponse)
    (hexp : t.isExpired env.now = true) (hrt : t.refreshToken ≠ "")
    (hnet : env.net = .response 200 (some r)) (hsave : env.saveOk = true) :
    ensureValidToken env (save t) =
      ⟨.ok r.accessToken, save (mkTokenFromResponse env.now r), 1⟩ := by
  simp [ensureValidToken, load, save, marshalToken, unmarshalToken, refresh,
    hexp, hrt, hnet, hsave, mkTokenFromResponse]

/-- Witness for C2 at a concrete expired token and a concrete 200
response. -/
theorem ensureValidToken_refreshes_witness :
    ensureValidToken ⟨0, .response 200 (some ⟨"new", "nref", "bearer", 3600, ""⟩), true⟩
        (save ⟨"old", "oref", "bearer", some 0⟩) =
      ⟨.ok "new", save (mkTokenFromResponse 0 ⟨"new", "nref", "bearer", 3600, ""⟩), 1⟩ :=
  ensureValidToken_refreshes ⟨0, .response 200 (some ⟨"new", "nref", "bearer", 3600, ""⟩), true⟩
    ⟨"old", "oref", "bearer", some 0⟩ ⟨"new", "nref", "bearer", 3600, ""⟩
    rfl (by decide) rfl rfl

/-- C3: for every stored token that is expired under the 5-minute margin
and has an empty refresh token, EnsureValidToken fails with the
token-expired error, makes no token-endpoint call, and never yields the
stale access token. -/
theorem ensureValidToken_expired_noRefresh (env : RefreshEnv) (t : Token)
    (hexp : t.isExpired env.now = true) (hrt : t.refreshToken = "") :
    ensureValidToken env (save t) =
      ⟨.error "token expired and no refresh token available", save t, 0⟩ := by
  have h2 : Token.isExpired ⟨t.accessToken, "", t.tokenType, t.expiry⟩ env.now = true := by
    rw [← hrt]; exact hexp
  simp [ensureValidToken, load, save, marshalToken, unmarshalToken, hexp, hrt, h2]

/-- Witness for C3 at a concrete expired token without refresh token. -/
theorem ensureValidToken_expired_noRefresh_witness :
    ensureValidToken ⟨0, .failed, true⟩ (save ⟨"old", "", "bearer", some 0⟩) =
      ⟨.error "token expired and no refresh token available",
        save ⟨"old", "", "bearer", some 0⟩, 0⟩ :=
  ensureValidToken_expired_noRefresh ⟨0, .failed, true⟩ ⟨"old", "", "bearer", some 0⟩ rfl rfl

/-- C4: IsExpired is true for every token whose expiry lies less than
5 minutes after the current instant, false for every token whose expiry
lies more than 5 minutes after it, and false whenever the expiry is the
zero time. -/
theorem isExpired_margin (now : Int) (t : Token) :
    (∀ e, t.expiry = some e → e < now + fiveMinutes → t.isExpired now = true) ∧
    (∀ e, t.expiry = some e → now + fiveMinutes < e → t.isExpired now = false) ∧
    (t.expiry = none → t.isExpired now = false) := by
  refine ⟨fun e he hlt => ?_, fun e he hgt => ?_, fun he => ?_⟩ <;>
    simp [Token.isExpired, he] <;> omega

/-- Witness for C4 at expiries now+4min, now+10min and the zero time. -/
theorem isExpired_margin_witness :
    Token.isExpired ⟨"a", "r", "b", some 240000000000⟩ 0 = true ∧
    Token.isExpired ⟨"a", "r", "b", some 600000000000⟩ 0 = false ∧
    Token.isExpired ⟨"a", "r", "b", none⟩ 0 = false :=
  ⟨(isExpired_margin 0 ⟨"a", "r", "b", some 240000000000⟩).1 240000000000 rfl (by decide),
   (isExpired_margin 0 ⟨"a", "r", "b", some 600000000000⟩).2.1 600000000000 rfl (by decide),
   (isExpired_margin 0 ⟨"a", "r", "b", none⟩).2.2 rfl⟩

/-- C6: for every callback request whose state parameter differs from the
expected nonce, the handler signals the invalid-state error and never
signals an authorization code, even if the query also carries a code. -/
theorem handleCallback_state_mismatch (expected : String) (q : CallbackQuery)
    (h : q.state ≠ expected) :
    handleCallback expected q = .sigError "invalid state parameter" ∧
    ∀ c, handleCallback expected q ≠ .sigCode c := by
  refine ⟨by simp [handleCallback, h], fun c hc => ?_⟩
  simp [handleCallback, h] at hc

/-- Witness for C6 at a mismatched state carrying a valid code. -/
theorem handleCallback_state_mismatch_witness :
    handleCallback "expected-nonce" ⟨"wrong-nonce", "", "", "valid-code"⟩ =
      .sigError "invalid state parameter" ∧
    ∀ c, handleCallback "expected-nonce" ⟨"wrong-nonce", "", "", "valid-code"⟩ ≠ .sigCode c :=
  handleCallback_state_mismatch "expected-nonce" ⟨"wrong-nonce", "", "", "valid-code"⟩
    (by decide)

/-- C7: for every token t, Save t followed by Load yields a present token
whose access token, refresh token, token type and expiry all equal those
of t. -/
theorem save_load_roundtrip (t : Token) :
    ∃ t2, load (save t) = .ok (some t2) ∧
      t2.accessToken = t.accessToken ∧ t2.refreshToken = t.refreshToken ∧
      t2.tokenType = t.tokenType ∧ t2.expiry = t.expiry :=
  ⟨t, by simp [load, save, marshalToken, unmarshalToken], rfl, rfl, rfl, rfl⟩

/-- C8: Load on a missing file returns absent without error, Delete on a
missing file is an error-free no-op, and a file that exists but cannot be
read or parsed makes Load return an error, not absent. -/
theorem load_delete_missing :
    load .missing = .ok none ∧
    deleteFile .missing = .ok .missing ∧
    load .unreadable = .error "reading token file" ∧
    load (.stored .invalidJson) = .error "parsing token file" :=
  ⟨rfl, rfl, rfl, rfl⟩

/-- C9: when a non-empty access token is supplied at client construction,
getToken returns it as is — no expiry check is involved — and the token
provider is never consulted, whatever outcome it would produce. -/
theorem getToken_constructionToken_priority (envToken : String) (p : ProviderModel)
    (h : envToken ≠ "") :
    getToken (newClientWithTokenProvider envToken p) = ⟨.ok envToken, 0⟩ := by
  simp [getToken, newClientWithTokenProvider, h]

/-- Witness for C9 with a provider that would fail if consulted. -/
theorem getToken_constructionToken_priority_witness :
    getToken (newClientWithTokenProvider "etok" ⟨.error "provider boom"⟩) =
      ⟨.ok "etok", 0⟩ :=
  getToken_constructionToken_priority "etok" ⟨.error "provider boom"⟩ (by decide)

/-- C10: every token built from a token-endpoint response — the shared
construction of Refresh and exchangeCode — has expiry set to now plus
expires_in seconds, which is never the zero time; with expires_in = 0 the
token is immediately reported expired.  Refresh (on a 200 response with a
successful save) and exchangeCode (on a 200 response) both return exactly
this token. -/
theorem tokenFromResponse_expiry (now : Int) (r : TokenResponse) :
    (mkTokenFromResponse now r).expiry = some (now + r.expiresIn * nsPerSecond) ∧
    (mkTokenFromResponse now r).expiry ≠ none ∧
    (r.expiresIn = 0 → (mkTokenFromResponse now r).isExpired now = true) ∧
    (∀ fs, (refresh ⟨now, .response 200 (some r), true⟩ fs).result =
      .ok (mkTokenFromResponse now r)) ∧
    (∀ sg ln br ev sv, exchangeCode ⟨sg, ln, br, ev, .response 200 (some r), now, sv⟩ =
      .ok (mkTokenFromResponse now r)) := by
  refine ⟨rfl, by simp [mkTokenFromResponse], fun h0 => ?_, fun fs => ?_,
    fun sg ln br ev sv => ?_⟩
  · simp [mkTokenFromResponse, Token.isExpired, h0, fiveMinutes]
  · simp [refresh]
  · simp [exchangeCode]

/-- Witness for C10 at a concrete response with expires_in = 0. -/
theorem tokenFromResponse_expiry_witness :
    Token.isExpired (mkTokenFromResponse 0 ⟨"a", "r", "b", 0, ""⟩) 0 = true ∧
    (refresh ⟨0, .response 200 (some ⟨"a", "r", "b", 0, ""⟩), true⟩ .missing).result =
      .ok (mkTokenFromResponse 0 ⟨"a", "r", "b", 0, ""⟩) ∧
    exchangeCode ⟨true, true, true, .timedOut, .response 200 (some ⟨"a", "r", "b", 0, ""⟩), 0, true⟩ =
      .ok (mkTokenFromResponse 0 ⟨"a", "r", "b", 0, ""⟩) :=
  ⟨(tokenFromResponse_expiry 0 ⟨"a", "r", "b", 0, ""⟩).2.2.1 rfl,
   (tokenFromResponse_expiry 0 ⟨"a", "r", "b", 0, ""⟩).2.2.2.1 .missing,
   (tokenFromResponse_expiry 0 ⟨"a", "r", "b", 0, ""⟩).2.2.2.2 true true true .timedOut true⟩

/-- C5 fails as stated: a state mismatch on the callback — a user-facing
outcome per the claim, here even carrying a valid code — is delivered on
errChan and StartAuthFlow returns it as an error, not inside a successful
return as a non-success AuthResult. -/
theorem startAuthFlow_mismatch_is_error :
    (startAuthFlow
        ⟨true, true, true,
          signalEvent (handleCallback "expected-nonce" ⟨"bad-nonce", "", "", "real-code"⟩),
          .response 200 none, 0, true⟩ .missing).1 =
      .error "invalid state parameter" := by
  simp [startAuthFlow, handleCallback, signalEvent]

/-- C5 (amended): StartAuthFlow returns errors on infrastructure failures
(state generation, listener bind); among user-facing outcomes only a
failed browser open and the five-minute timeout are reported inside a
successful return as a non-success AuthResult, while outcomes delivered by
the callback handler on errChan (consent denial, state mismatch) are
propagated as errors. -/
theorem startAuthFlow_outcomes (env : FlowEnv) (fs : FileState) :
    (env.stateGenOk = false → (startAuthFlow env fs).1 = .error "generating state") ∧
    (env.stateGenOk = true → env.listenOk = false →
      (startAuthFlow env fs).1 = .error "starting callback server") ∧
    (env.stateGenOk = true → env.listenOk = true → env.browserOk = false →
      (startAuthFlow env fs).1 = .ok ⟨false, browserFailMessage⟩) ∧
    (env.stateGenOk = true → env.listenOk = true → env.browserOk = true →
      env.event = .timedOut → (startAuthFlow env fs).1 = .ok ⟨false, timeoutMessage⟩) ∧
    (∀ m, env.stateGenOk = true → env.listenOk = true → env.browserOk = true →
      env.event = .errReceived m → (startAuthFlow env fs).1 = .error m) := by
  refine ⟨fun h1 => ?_, fun h1 h2 => ?_, fun h1 h2 h3 => ?_, fun h1 h2 h3 h4 => ?_,
    fun m h1 h2 h3 h4 => ?_⟩ <;> simp [startAuthFlow, *]

/-- Witness for the amended C5: each branch at a concrete environment,
with consent denial produced by the callback handler itself. -/
theorem startAuthFlow_outcomes_witness :
    (startAuthFlow ⟨false, true, true, .timedOut, .failed, 0, true⟩ .missing).1 =
      .error "generating state" ∧
    (startAuthFlow ⟨true, false, true, .timedOut, .failed, 0, true⟩ .missing).1 =
      .error "starting callback server" ∧
    (startAuthFlow ⟨true, true, false, .timedOut, .failed, 0, true⟩ .missing).1 =
      .ok ⟨false, browserFailMessage⟩ ∧
    (startAuthFlow ⟨true, true, true, .timedOut, .failed, 0, true⟩ .missing).1 =
      .ok ⟨false, timeoutMessage⟩ ∧
    (startAuthFlow ⟨true, true, true,
        signalEvent (handleCallback "nonce" ⟨"nonce", "access_denied", "User denied access", ""⟩),
        .failed, 0, true⟩ .missing).1 =
      .error "authorization error: access_denied - User denied access" :=
  ⟨(startAuthFlow_outcomes _ _).1 rfl,
   (startAuthFlow_outcomes _ _).2.1 rfl rfl,
   (startAuthFlow_outcomes _ _).2.2.1 rfl rfl rfl,
   (startAuthFlow_outcomes _ _).2.2.2.1 rfl rfl rfl rfl,
   (startAuthFlow_outcomes _ _).2.2.2.2 "authorization error: access_denied - User denied access"
     rfl rfl rfl (by simp [handleCallback, signalEvent])⟩

end WhoopMCP
